import Mathlib

/-!
Shallow embedding of the AS5600L MicroPython driver (src/ASL5600L.py).

The driver talks to the sensor over an I2C bus: every read is a
register-select write of one byte followed by an N-byte read, and the
constructor performs a single three-byte configuration write.  We model
the device as a map from register address to an infinite byte stream
(`Device.reg r i` is the i-th byte read back after selecting register
`r`), and each driver method returns its result together with the list
of bus transactions it issued, in order.  Option arguments to the
constructor are modelled as `Int` because Python integers are unbounded
and may be negative; a Python guard `x in range(0, n)` is exactly
`0 ≤ x ∧ x < n`.
-/

namespace ASL5600L

def ADDRESS : Nat := 0x40
def CONF_REG : Nat := 0x07
def STATUS_REG : Nat := 0x0B
def ANGLE_REG : Nat := 0x0E
def AGC_REG : Nat := 0x1A

/-- A bus transaction: `writeto(ADDRESS, data)` or `readfrom(ADDRESS, n)`. -/
inductive Txn where
  | writeto (addr : Nat) (data : List Nat)
  | readfrom (addr : Nat) (n : Nat)
  deriving DecidableEq, Repr

/-- The simulated sensor: byte `i` of register `r` is `reg r i`. -/
structure Device where
  reg : Nat → Nat → Nat

/-- Bytes returned by `i2c.readfrom(ADDRESS, n)` after register `r` was selected. -/
def readBytes (d : Device) (r n : Nat) : List Nat :=
  (List.range n).map (d.reg r)

/-- `int.from_bytes(bs, 'big')`. -/
def fromBytesBig (bs : List Nat) : Nat :=
  bs.foldl (fun a b => a * 256 + b) 0

/-- Byte `c1` assembled by `__init__` (lines 32-45): watchdog, fast filter
threshold and slow filter, each OR-ed in only when its Python range guard
holds. -/
def buildC1 (watchdog fastFilterThreshold slowFilter : Int) : Nat :=
  let c1 : Nat := 0x00
  let c1 := if 0 ≤ watchdog ∧ watchdog < 2 then c1 ||| (watchdog.toNat <<< 5) else c1
  let c1 := if 0 ≤ fastFilterThreshold ∧ fastFilterThreshold < 8 then
      c1 ||| (fastFilterThreshold.toNat <<< 2) else c1
  let c1 := if 0 ≤ slowFilter ∧ slowFilter < 4 then c1 ||| slowFilter.toNat else c1
  c1

/-- Byte `c2` assembled by `__init__` (lines 47-61): PWM frequency, output
stage, power mode and hysteresis, in the source's order. -/
def buildC2 (pwmFreq outputStage powerMode hyst : Int) : Nat :=
  let c2 : Nat := 0x00
  let c2 := if 0 ≤ pwmFreq ∧ pwmFreq < 4 then c2 ||| (pwmFreq.toNat <<< 6) else c2
  let c2 := if 0 ≤ outputStage ∧ outputStage < 2 then c2 ||| (outputStage.toNat <<< 4) else c2
  let c2 := if 0 ≤ powerMode ∧ powerMode < 4 then c2 ||| powerMode.toNat else c2
  let c2 := if 0 ≤ hyst ∧ hyst < 4 then c2 ||| (hyst.toNat <<< 2) else c2
  c2

/-- Bus transactions issued by `__init__` (line 63): the single
configuration write `i2c.writeto(ADDRESS, bytes([CONF_REG, c1, c2]))`. -/
def initTxns (hyst powerMode watchdog fastFilterThreshold slowFilter pwmFreq outputStage : Int) :
    List Txn :=
  [Txn.writeto ADDRESS [CONF_REG,
      buildC1 watchdog fastFilterThreshold slowFilter,
      buildC2 pwmFreq outputStage powerMode hyst]]

/-- The dictionary returned by `getStatus` (lines 81-86). -/
structure StatusSnapshot where
  magnetDetected : Bool
  magnetTooWeak : Bool
  magnetTooStrong : Bool
  agc : Nat
  deriving DecidableEq, Repr

/-- `getStatus` (lines 66-86): select the status register, read one byte,
decode bits 3, 4, 5; select the AGC register, read one byte; return the
dictionary plus the four transactions issued. -/
def getStatus (d : Device) : StatusSnapshot × List Txn :=
  let status := fromBytesBig (readBytes d STATUS_REG 1)
  let mh := status &&& 0b00001000 ≠ 0
  let ml := status &&& 0b00010000 ≠ 0
  let md := status &&& 0b00100000 ≠ 0
  let agc := fromBytesBig (readBytes d AGC_REG 1)
  (⟨md, ml, mh, agc⟩,
   [Txn.writeto ADDRESS [STATUS_REG], Txn.readfrom ADDRESS 1,
    Txn.writeto ADDRESS [AGC_REG], Txn.readfrom ADDRESS 1])

/-- `isOk` (lines 88-104): a fresh status-register read, then
`if md and not mh and not ml: return True else: return False`. -/
def isOk (d : Device) : Bool × List Txn :=
  let status := fromBytesBig (readBytes d STATUS_REG 1)
  let mh : Bool := status &&& 0b00001000 ≠ 0
  let ml : Bool := status &&& 0b00010000 ≠ 0
  let md : Bool := status &&& 0b00100000 ≠ 0
  (if md ∧ ¬mh ∧ ¬ml then true else false,
   [Txn.writeto ADDRESS [STATUS_REG], Txn.readfrom ADDRESS 1])

/-- `getAngle` (lines 107-114): select the angle register, then a two-byte
big-endian read, no masking. -/
def getAngle (d : Device) : Nat × List Txn :=
  (fromBytesBig (readBytes d ANGLE_REG 2),
   [Txn.writeto ADDRESS [ANGLE_REG], Txn.readfrom ADDRESS 2])

/-- The conversion `(float(raw) / 4096) * 360` (lines 125 and 137), modelled
exactly over ℚ: for a 12-bit raw angle every intermediate float value needs
at most 21 significand bits, so IEEE float arithmetic is exact here and the
rational model coincides with it. -/
def toDegrees (raw : Nat) : ℚ :=
  (raw : ℚ) / 4096 * 360

/-- `getAngleDegrees` (lines 118-128): call `isOk`; if it is true, read the
angle and convert, otherwise return `None` without touching the bus again. -/
def getAngleDegrees (d : Device) : Option ℚ × List Txn :=
  let ok := isOk d
  if ok.1 then
    let raw := getAngle d
    (some (toDegrees raw.1), ok.2 ++ raw.2)
  else
    (none, ok.2)

/-- `getAngleDegreesFast` (lines 130-137): write the literal selector byte
`b'\x0e'`, read two bytes big-endian and convert, with no status gate. -/
def getAngleDegreesFast (d : Device) : ℚ × List Txn :=
  (toDegrees (fromBytesBig (readBytes d 0x0e 2)),
   [Txn.writeto ADDRESS [0x0e], Txn.readfrom ADDRESS 2])

/-- `getConf` (lines 140-147): select the configuration register, then a
two-byte big-endian read. -/
def getConf (d : Device) : Nat × List Txn :=
  (fromBytesBig (readBytes d CONF_REG 2),
   [Txn.writeto ADDRESS [CONF_REG], Txn.readfrom ADDRESS 2])

/-- A transaction that selects the angle register: a write whose payload
mentions the angle register address. `getAngleDegrees` must issue none of
these when the status is invalid. -/
def selectsAngleReg : Txn → Bool
  | Txn.writeto _ data => data.contains ANGLE_REG
  | Txn.readfrom _ _ => false

/- Helper lemmas (shared). -/

lemma decide_and_two_pow (s k : Nat) : decide (s &&& 2 ^ k ≠ 0) = s.testBit k := by
  rw [Nat.and_two_pow]
  cases h : s.testBit k <;> simp [h, Nat.pos_iff_ne_zero.mp (Nat.two_pow_pos k)]

lemma or_le_255 {x y : Nat} (hx : x ≤ 255) (hy : y ≤ 255) : x ||| y ≤ 255 := by
  have e : (2 : Nat) ^ 8 = 256 := by norm_num
  have h := Nat.or_lt_two_pow (x := x) (y := y) (n := 8) (by rw [e]; omega) (by rw [e]; omega)
  rw [e] at h
  omega

lemma step_le_255 (c : Nat) (P : Prop) [Decidable P] (v : Nat)
    (hc : c ≤ 255) (hv : P → v ≤ 255) : (if P then c ||| v else c) ≤ 255 := by
  by_cases h : P
  · rw [if_pos h]; exact or_le_255 hc (hv h)
  · rw [if_neg h]; exact hc

lemma fromBytesBig_one (b : Nat) : fromBytesBig [b] = b := by
  simp [fromBytesBig]

lemma fromBytesBig_two (a b : Nat) : fromBytesBig [a, b] = a * 256 + b := by
  simp [fromBytesBig]

lemma readBytes_one (d : Device) (r : Nat) : readBytes d r 1 = [d.reg r 0] := rfl

lemma readBytes_two (d : Device) (r : Nat) : readBytes d r 2 = [d.reg r 0, d.reg r 1] := rfl

/-- Claim C1, counterexample: at hysteresis=2, powerMode=1, watchdog=1,
fastFilterThreshold=5, slowFilter=2, pwmFrequency=3, outputStage=1 the
assembled bytes are NOT C1=0x29 and C2=0xDE: the formula gives
C1 = (1<<5)|(5<<2)|2 = 0x36 and C2 = (3<<6)|(1<<4)|(2<<2)|1 = 0xD9. -/
theorem C1_bytes_counterexample :
    ¬(buildC1 1 5 2 = 0x29 ∧ buildC2 3 1 1 2 = 0xDE) := by
  decide

/-- Claim C1, amended: for every combination of option values within their
valid ranges the constructor assembles C1 = (watchdog<<5) |
(fastFilterThreshold<<2) | slowFilter and C2 = (pwmFrequency<<6) |
(outputStage<<4) | (hysteresis<<2) | powerMode; in particular for the
vector hysteresis=2, powerMode=1, watchdog=1, fastFilterThreshold=5,
slowFilter=2, pwmFrequency=3, outputStage=1 the bytes are C1=0x36,
C2=0xD9 (not 0x29/0xDE as the spec example claims). -/
theorem C1_bytes_formula :
    (∀ w : Nat, w < 2 → ∀ f : Nat, f < 8 → ∀ s : Nat, s < 4 →
      buildC1 w f s = ((w <<< 5) ||| (f <<< 2) ||| s)) ∧
    (∀ p : Nat, p < 4 → ∀ o : Nat, o < 2 → ∀ h : Nat, h < 4 → ∀ m : Nat, m < 4 →
      buildC2 p o m h = ((p <<< 6) ||| (o <<< 4) ||| (h <<< 2) ||| m)) ∧
    buildC1 1 5 2 = 0x36 ∧ buildC2 3 1 1 2 = 0xD9 := by
  refine ⟨by decide, by decide, by decide, by decide⟩

/-- Claim C1 witness: the formula theorem applied at the spec's own test
vector. -/
theorem C1_bytes_formula_witness :
    buildC1 1 5 2 = ((1 <<< 5) ||| (5 <<< 2) ||| 2) ∧
    buildC2 3 1 1 2 = ((3 <<< 6) ||| (1 <<< 4) ||| (2 <<< 2) ||| 1) :=
  ⟨C1_bytes_formula.1 1 (by decide) 5 (by decide) 2 (by decide),
   C1_bytes_formula.2.1 3 (by decide) 1 (by decide) 2 (by decide) 1 (by decide)⟩

/-- Claim C4: an option outside its valid range (hysteresis 0..3,
powerMode 0..3, watchdog 0..1, fastFilterThreshold 0..7, slowFilter 0..3,
pwmFrequency 0..3, outputStage 0..1) leaves that field's bits at zero and
raises no error: the bytes equal those produced with that option set
to 0 (the definitions are total, so construction never fails). -/
theorem C4_out_of_range_ignored (hyst powerMode watchdog fft sf pwm os : Int) :
    (¬(0 ≤ watchdog ∧ watchdog < 2) → buildC1 watchdog fft sf = buildC1 0 fft sf) ∧
    (¬(0 ≤ fft ∧ fft < 8) → buildC1 watchdog fft sf = buildC1 watchdog 0 sf) ∧
    (¬(0 ≤ sf ∧ sf < 4) → buildC1 watchdog fft sf = buildC1 watchdog fft 0) ∧
    (¬(0 ≤ pwm ∧ pwm < 4) → buildC2 pwm os powerMode hyst = buildC2 0 os powerMode hyst) ∧
    (¬(0 ≤ os ∧ os < 2) → buildC2 pwm os powerMode hyst = buildC2 pwm 0 powerMode hyst) ∧
    (¬(0 ≤ powerMode ∧ powerMode < 4) → buildC2 pwm os powerMode hyst = buildC2 pwm os 0 hyst) ∧
    (¬(0 ≤ hyst ∧ hyst < 4) → buildC2 pwm os powerMode hyst = buildC2 pwm os powerMode 0) := by
  refine ⟨fun h => ?_, fun h => ?_, fun h => ?_, fun h => ?_, fun h => ?_,
    fun h => ?_, fun h => ?_⟩ <;>
    simp [buildC1, buildC2, h]

/-- Claim C4 witness: each out-of-range value (including hysteresis=7 and a
negative value) yields the same byte as the zero default. -/
theorem C4_out_of_range_ignored_witness :
    buildC1 2 0 0 = buildC1 0 0 0 ∧ buildC1 0 8 0 = buildC1 0 0 0 ∧
    buildC1 0 0 (-1) = buildC1 0 0 0 ∧ buildC2 4 0 0 0 = buildC2 0 0 0 0 ∧
    buildC2 0 2 0 0 = buildC2 0 0 0 0 ∧ buildC2 0 0 4 0 = buildC2 0 0 0 0 ∧
    buildC2 0 0 0 7 = buildC2 0 0 0 0 :=
  ⟨(C4_out_of_range_ignored 0 0 2 0 0 0 0).1 (by decide),
   (C4_out_of_range_ignored 0 0 0 8 0 0 0).2.1 (by decide),
   (C4_out_of_range_ignored 0 0 0 0 (-1) 0 0).2.2.1 (by decide),
   (C4_out_of_range_ignored 0 0 0 0 0 4 0).2.2.2.1 (by decide),
   (C4_out_of_range_ignored 0 0 0 0 0 0 2).2.2.2.2.1 (by decide),
   (C4_out_of_range_ignored 0 4 0 0 0 0 0).2.2.2.2.2.1 (by decide),
   (C4_out_of_range_ignored 7 0 0 0 0 0 0).2.2.2.2.2.2 (by decide)⟩

/-- Claim C8: for every combination of option values, construction issues
exactly one bus transaction, a write to the device address whose payload
is the configuration-register selector followed by [C1, C2]; every
transaction issued is a write (no readback). -/
theorem C8_init_single_write (hyst powerMode watchdog fft sf pwm os : Int) :
    initTxns hyst powerMode watchdog fft sf pwm os =
      [Txn.writeto ADDRESS [CONF_REG, buildC1 watchdog fft sf,
        buildC2 pwm os powerMode hyst]] ∧
    (initTxns hyst powerMode watchdog fft sf pwm os).length = 1 ∧
    ∀ t ∈ initTxns hyst powerMode watchdog fft sf pwm os,
      ∃ l, t = Txn.writeto ADDRESS l := by
  refine ⟨rfl, rfl, ?_⟩
  intro t ht
  simp only [initTxns, List.mem_singleton] at ht
  exact ⟨_, ht⟩

/-- Claim C8 witness: the single-write theorem applied at the all-default
option vector, with the membership hypothesis discharged at the one
transaction issued. -/
theorem C8_init_single_write_witness :
    ∃ l, Txn.writeto ADDRESS [CONF_REG, buildC1 0 0 0, buildC2 0 0 0 0] =
      Txn.writeto ADDRESS l :=
  (C8_init_single_write 0 0 0 0 0 0 0).2.2 _ (by simp [initTxns])

/-- Claim C9: for every tuple of integer option arguments, including
negative values and values far above the valid ranges, the assembled
bytes C1 and C2 lie in 0..255 (they are naturals by construction, and
bounded above), so the three-byte configuration payload is always
well-formed. -/
theorem C9_config_bytes_bounded (hyst powerMode watchdog fft sf pwm os : Int) :
    buildC1 watchdog fft sf ≤ 255 ∧ buildC2 pwm os powerMode hyst ≤ 255 := by
  have e5 : (2 : Nat) ^ 5 = 32 := by norm_num
  have e2 : (2 : Nat) ^ 2 = 4 := by norm_num
  have e6 : (2 : Nat) ^ 6 = 64 := by norm_num
  have e4 : (2 : Nat) ^ 4 = 16 := by norm_num
  constructor
  · simp only [buildC1]
    apply step_le_255
    · apply step_le_255
      · apply step_le_255
        · omega
        · intro h; rw [Nat.shiftLeft_eq, e5]; omega
      · intro h; rw [Nat.shiftLeft_eq, e2]; omega
    · intro h; omega
  · simp only [buildC2]
    apply step_le_255
    · apply step_le_255
      · apply step_le_255
        · apply step_le_255
          · omega
          · intro h; rw [Nat.shiftLeft_eq, e6]; omega
        · intro h; rw [Nat.shiftLeft_eq, e4]; omega
      · intro h; omega
    · intro h; rw [Nat.shiftLeft_eq, e2]; omega

/-- Claim C2: isOk returns true iff the status byte has the magnet-detected
bit (bit 5) set, the magnet-too-strong bit (bit 3) clear and the
magnet-too-weak bit (bit 4) clear; false for all 7 other combinations of
those three bits. -/
theorem C2_isOk_iff (d : Device) :
    (isOk d).1 = true ↔
      ((d.reg STATUS_REG 0).testBit 5 = true ∧
       (d.reg STATUS_REG 0).testBit 3 = false ∧
       (d.reg STATUS_REG 0).testBit 4 = false) := by
  have e : fromBytesBig (readBytes d STATUS_REG 1) = d.reg STATUS_REG 0 := by
    rw [readBytes_one, fromBytesBig_one]
  simp only [isOk, e]
  rw [show (8 : Nat) = 2 ^ 3 from rfl, show (16 : Nat) = 2 ^ 4 from rfl,
    show (32 : Nat) = 2 ^ 5 from rfl]
  simp only [decide_and_two_pow]
  cases hb5 : (d.reg STATUS_REG 0).testBit 5 <;>
    cases hb3 : (d.reg STATUS_REG 0).testBit 3 <;>
      cases hb4 : (d.reg STATUS_REG 0).testBit 4 <;> simp [hb5, hb3, hb4]

/-- Claim C6: getStatus decodes bit 3 of the status byte as magnet too
strong, bit 4 as magnet too weak, bit 5 as magnet detected, and returns
all three booleans together with the AGC byte unconditionally, for every
device state. -/
theorem C6_getStatus_decodes (d : Device) :
    (getStatus d).1 = ⟨(d.reg STATUS_REG 0).testBit 5,
                       (d.reg STATUS_REG 0).testBit 4,
                       (d.reg STATUS_REG 0).testBit 3,
                       d.reg AGC_REG 0⟩ ∧
    (getStatus d).2 = [Txn.writeto ADDRESS [STATUS_REG], Txn.readfrom ADDRESS 1,
                       Txn.writeto ADDRESS [AGC_REG], Txn.readfrom ADDRESS 1] := by
  have e : fromBytesBig (readBytes d STATUS_REG 1) = d.reg STATUS_REG 0 := by
    rw [readBytes_one, fromBytesBig_one]
  have ea : fromBytesBig (readBytes d AGC_REG 1) = d.reg AGC_REG 0 := by
    rw [readBytes_one, fromBytesBig_one]
  refine ⟨?_, rfl⟩
  simp only [getStatus, e, ea]
  rw [show (8 : Nat) = 2 ^ 3 from rfl, show (16 : Nat) = 2 ^ 4 from rfl,
    show (32 : Nat) = 2 ^ 5 from rfl]
  simp only [decide_and_two_pow]

/-- Claim C3: whenever isOk is false, getAngleDegrees returns none, its
transaction log is exactly isOk's own status read, and no transaction in
that log selects the angle register. -/
theorem C3_gated_no_angle_read (d : Device) (h : (isOk d).1 = false) :
    (getAngleDegrees d).1 = none ∧
    (getAngleDegrees d).2 = (isOk d).2 ∧
    ∀ t ∈ (getAngleDegrees d).2, selectsAngleReg t = false := by
  have e1 : (getAngleDegrees d).1 = none := by
    simp [getAngleDegrees, h]
  have e2 : (getAngleDegrees d).2 = (isOk d).2 := by
    simp [getAngleDegrees, h]
  refine ⟨e1, e2, ?_⟩
  intro t ht
  rw [e2] at ht
  have e3 : (isOk d).2 = [Txn.writeto ADDRESS [STATUS_REG], Txn.readfrom ADDRESS 1] := rfl
  rw [e3] at ht
  simp only [List.mem_cons, List.not_mem_nil, or_false] at ht
  rcases ht with rfl | rfl
  · rfl
  · rfl

/-- A device whose registers all read zero: the magnet-detected bit is
clear, so isOk is false. -/
def dev0 : Device := ⟨fun _ _ => 0⟩

/-- Claim C3 witness: on the all-zero device the status is invalid, the
result is none and the log is only the status read. -/
theorem C3_gated_no_angle_read_witness :
    (getAngleDegrees dev0).1 = none ∧ (getAngleDegrees dev0).2 = (isOk dev0).2 :=
  ⟨(C3_gated_no_angle_read dev0 (by decide)).1,
   (C3_gated_no_angle_read dev0 (by decide)).2.1⟩

/-- Claim C7: getAngle issues a register-select write for the angle register
followed by a two-byte big-endian read with no masking, so every 12-bit
value placed in the simulated register round-trips exactly. -/
theorem C7_getAngle_roundtrip (v : Nat) (hv : v < 4096) (d : Device)
    (h0 : d.reg ANGLE_REG 0 = v / 256) (h1 : d.reg ANGLE_REG 1 = v % 256) :
    (getAngle d).1 = v ∧ (getAngle d).1 < 4096 ∧
    (getAngle d).2 = [Txn.writeto ADDRESS [ANGLE_REG], Txn.readfrom ADDRESS 2] := by
  have e : (getAngle d).1 = d.reg ANGLE_REG 0 * 256 + d.reg ANGLE_REG 1 := by
    simp [getAngle, readBytes_two, fromBytesBig_two]
  refine ⟨?_, ?_, rfl⟩ <;> rw [e, h0, h1] <;> omega

/-- A device holding the maximal 12-bit raw angle 4095 (bytes 0x0F, 0xFF)
in the angle register. -/
def devAngleMax : Device :=
  ⟨fun r i => if r = ANGLE_REG then (if i = 0 then 15 else 255) else 0⟩

/-- Claim C7 witness: the boundary value 4095 round-trips. -/
theorem C7_getAngle_roundtrip_witness :
    (getAngle devAngleMax).1 = 4095 ∧ (getAngle devAngleMax).1 < 4096 ∧
    (getAngle devAngleMax).2 = [Txn.writeto ADDRESS [ANGLE_REG], Txn.readfrom ADDRESS 2] :=
  C7_getAngle_roundtrip 4095 (by decide) devAngleMax (by decide) (by decide)

/-- Claim C5: with a valid status, getAngleDegrees converts the raw angle by
raw / 4096 * 360 (exact over ℚ: for 12-bit raw values every IEEE float
intermediate is exactly representable), getAngleDegreesFast applies the
same formula to the same register bytes, the result lies in [0, 360), and
raw angle 2048 gives 180, 0 gives 0, and 4095 gives 359.912109375, within
0.001 of 359.912. -/
theorem C5_degree_conversion (d : Device) (raw : Nat) (hraw : raw < 4096)
    (hok : (isOk d).1 = true)
    (hb : fromBytesBig (readBytes d ANGLE_REG 2) = raw) :
    (getAngleDegrees d).1 = some (toDegrees raw) ∧
    (getAngleDegreesFast d).1 = toDegrees raw ∧
    0 ≤ toDegrees raw ∧ toDegrees raw < 360 ∧
    toDegrees 2048 = 180 ∧ toDegrees 0 = 0 ∧
    toDegrees 4095 = 184275 / 512 ∧
    |toDegrees 4095 - 359912 / 1000| < 1 / 1000 := by
  have hcast : (raw : ℚ) < 4096 := by exact_mod_cast hraw
  refine ⟨?_, ?_, ?_, ?_, ?_, ?_, ?_, ?_⟩
  · simp [getAngleDegrees, hok, getAngle, hb]
  · have hb14 : fromBytesBig (readBytes d 0x0e 2) = raw := hb
    simp [getAngleDegreesFast, hb14]
  · unfold toDegrees; positivity
  · unfold toDegrees
    rw [div_mul_eq_mul_div, div_lt_iff₀ (by norm_num : (0 : ℚ) < 4096)]
    nlinarith
  · norm_num [toDegrees]
  · norm_num [toDegrees]
  · norm_num [toDegrees]
  · have e : toDegrees 4095 - 359912 / 1000 = 7 / 64000 := by norm_num [toDegrees]
    rw [e, abs_of_nonneg (by norm_num)]
    norm_num

/-- A device whose status byte has only the magnet-detected bit set and
whose angle register holds raw value 2048 (bytes 0x08, 0x00). -/
def devMid : Device :=
  ⟨fun r i => if r = STATUS_REG then 32
    else if r = ANGLE_REG then (if i = 0 then 8 else 0) else 0⟩

/-- Claim C5 witness: the conversion theorem applied to a device reporting a
valid magnet and raw angle 2048, whose degree value is 180. -/
theorem C5_degree_conversion_witness :
    (getAngleDegrees devMid).1 = some (toDegrees 2048) ∧
    (getAngleDegreesFast devMid).1 = toDegrees 2048 ∧
    0 ≤ toDegrees 2048 ∧ toDegrees 2048 < 360 ∧
    toDegrees 2048 = 180 ∧ toDegrees 0 = 0 ∧
    toDegrees 4095 = 184275 / 512 ∧
    |toDegrees 4095 - 359912 / 1000| < 1 / 1000 :=
  C5_degree_conversion devMid 2048 (by decide) (by decide) (by decide)

/-- Claim C10: getAngleDegreesFast selects the same angle register as
getAngle (its literal selector byte 0x0e equals ANGLE_REG) and applies
the identical big-endian decode and degree conversion, so on any device
state it returns exactly the conversion of getAngle's result, and when
the status is valid getAngleDegrees returns that same value. -/
theorem C10_fast_path_equivalence (d : Device) :
    (0x0e : Nat) = ANGLE_REG ∧
    (getAngleDegreesFast d).1 = toDegrees (getAngle d).1 ∧
    (getAngleDegreesFast d).2 = [Txn.writeto ADDRESS [ANGLE_REG], Txn.readfrom ADDRESS 2] ∧
    ((isOk d).1 = true → (getAngleDegrees d).1 = some ((getAngleDegreesFast d).1)) := by
  refine ⟨rfl, rfl, rfl, fun h => ?_⟩
  simp [getAngleDegrees, h, getAngle, getAngleDegreesFast, ANGLE_REG]

/-- A device whose status byte has only the magnet-detected bit set. -/
def devOk : Device := ⟨fun r _ => if r = STATUS_REG then 32 else 0⟩

/-- Claim C10 witness: on a device with a valid status, the gated path
returns exactly the fast path's value. -/
theorem C10_fast_path_equivalence_witness :
    (getAngleDegrees devOk).1 = some ((getAngleDegreesFast devOk).1) :=
  (C10_fast_path_equivalence devOk).2.2.2 (by decide)

end ASL5600L
